import Mathlib

/-!
Shallow embedding of the email-tracker service.  The primary variant is
src/index.js (better-sqlite3, parameterized queries); the second variant is
src/unnamed/part_000 (sql.js, string-interpolated lookups).  The four SQLite
tables are modelled as lists of rows (append-only inserts go to the end, as
AUTOINCREMENT ids do), handlers as pure functions from request data and a
store to a new store and a response.  SQL joins are modelled by counting
matching pairs/triples, ORDER BY by insertion sort, LIMIT by List.take,
GROUP BY by dedup of the grouping key, and COUNT(DISTINCT ..) / JS Set size
by dedup length.  A fallible INSERT (the statement can throw at run time)
is modelled by a Bool oracle `insertOk` passed to the handler; timestamps
(DATETIME DEFAULT CURRENT_TIMESTAMP) are Nat seconds passed as `now`.
-/

namespace EmailTracker

/-- Row of the `emails` table: id TEXT PRIMARY KEY, subject, recipient,
sent_at DATETIME, user_email TEXT. -/
structure EmailRow where
  id : String
  subject : String
  recipient : String
  sent_at : Nat
  user_email : String
  deriving DecidableEq

/-- Row of the `opens` table: email_id TEXT, opened_at DATETIME,
ip_address TEXT, user_agent TEXT (the AUTOINCREMENT id is the list
position). -/
structure OpenRow where
  email_id : String
  opened_at : Nat
  ip_address : String
  user_agent : String
  deriving DecidableEq

/-- Row of the `links` table: id TEXT PRIMARY KEY, email_id TEXT,
original_url TEXT, created_at DATETIME. -/
structure LinkRow where
  id : String
  email_id : String
  original_url : String
  created_at : Nat
  deriving DecidableEq

/-- Row of the `clicks` table: link_id TEXT, clicked_at DATETIME,
ip_address TEXT, user_agent TEXT. -/
structure ClickRow where
  link_id : String
  clicked_at : Nat
  ip_address : String
  user_agent : String
  deriving DecidableEq

/-- The whole SQLite database: the four tables. -/
structure Store where
  emails : List EmailRow
  opens : List OpenRow
  links : List LinkRow
  clicks : List ClickRow
  deriving DecidableEq

/-- The request data the tracking handlers read: the x-forwarded-for
header, the connection peer address req.ip, and the user-agent header. -/
structure Request where
  xForwardedFor : Option String
  ip : String
  userAgent : Option String
  deriving DecidableEq

/-- JS `a || b` on an optional header: a missing header and an empty
string are both falsy. -/
def headerOr (h : Option String) (dflt : String) : String :=
  match h with
  | some s => if s = "" then dflt else s
  | none => dflt

/-- Models the expression req.headers[x-forwarded-for] falling back to req.ip. -/
def clientIp (req : Request) : String :=
  headerOr req.xForwardedFor req.ip

/-- Models the expression req.headers[user-agent] falling back to the sentinel Unknown. -/
def clientUserAgent (req : Request) : String :=
  headerOr req.userAgent "Unknown"

/-- The bytes of the TRACKING_PIXEL constant (src/index.js lines 66-69):
the base64 string decoded, a 70-byte 1x1 transparent PNG. -/
def trackingPixel : List Nat :=
  [137, 80, 78, 71, 13, 10, 26, 10, 0, 0, 0, 13, 73, 72, 68, 82,
   0, 0, 0, 1, 0, 0, 0, 1, 8, 6, 0, 0, 0, 31, 21, 196,
   137, 0, 0, 0, 13, 73, 68, 65, 84, 120, 218, 99, 100, 248, 207, 80,
   15, 0, 3, 134, 1, 128, 90, 52, 125, 107, 0, 0, 0, 0, 73, 69,
   78, 68, 174, 66, 96, 130]

/-- The response of the pixel endpoint: status, the headers set by
res.set, and the body bytes. -/
structure PixelResponse where
  status : Nat
  contentType : String
  contentLength : Nat
  cacheControl : String
  pragma : String
  expires : String
  body : List Nat
  deriving DecidableEq

/-- The fixed response of GET /t/:emailId.png (lines 97-105 of
src/index.js): 200, image/png, the no-cache headers, the pixel bytes. -/
def pixelResponse : PixelResponse :=
  { status := 200
    contentType := "image/png"
    contentLength := trackingPixel.length
    cacheControl := "no-store, no-cache, must-revalidate, private"
    pragma := "no-cache"
    expires := "0"
    body := trackingPixel }

/-- The Open row inserted by the pixel endpoint. -/
def openRowOf (emailId : String) (now : Nat) (req : Request) : OpenRow :=
  { email_id := emailId
    opened_at := now
    ip_address := clientIp req
    user_agent := clientUserAgent req }

/-- GET /t/:emailId.png (src/index.js lines 79-106, src/unnamed/part_000
lines 74-94): try to insert an Open row (the catch only logs), then set
the headers and send the pixel.  `insertOk = false` is the run where the
INSERT throws: the row is not written and the response is unchanged. -/
def pixelHandler (insertOk : Bool) (emailId : String) (now : Nat) (req : Request)
    (s : Store) : Store × PixelResponse :=
  (if insertOk then { s with opens := s.opens ++ [openRowOf emailId now req] } else s,
   { status := 200
     contentType := "image/png"
     contentLength := trackingPixel.length
     cacheControl := "no-store, no-cache, must-revalidate, private"
     pragma := "no-cache"
     expires := "0"
     body := trackingPixel })

/-- N successive fetches of the pixel for the same emailId, each with its
own request data and server time; all inserts succeed. -/
def pixelRun (emailId : String) (rs : List (Request × Nat)) (s : Store) :
    Store × List PixelResponse :=
  match rs with
  | [] => (s, [])
  | rn :: rest =>
    let p := pixelHandler true emailId rn.2 rn.1 s
    let q := pixelRun emailId rest p.1
    (q.1, p.2 :: q.2)

/-- Response of the click endpoint: status, text body, Location header. -/
structure ClickResponse where
  status : Nat
  body : String
  location : Option String
  deriving DecidableEq

/-- Models res.status(404).send with the text Link not found. -/
def notFoundResponse : ClickResponse :=
  { status := 404, body := "Link not found", location := none }

/-- Models the catch branch: res.status(500).send with the text Error processing request. -/
def serverErrorResponse : ClickResponse :=
  { status := 500, body := "Error processing request", location := none }

/-- res.redirect(302, url). -/
def redirectResponse (url : String) : ClickResponse :=
  { status := 302, body := "", location := some url }

/-- The Click row inserted by the click endpoint. -/
def clickRowOf (linkId : String) (now : Nat) (req : Request) : ClickRow :=
  { link_id := linkId
    clicked_at := now
    ip_address := clientIp req
    user_agent := clientUserAgent req }

/-- GET /c/:linkId (src/index.js lines 112-140): one try block around
SELECT original_url FROM links WHERE id = ?, the Click INSERT, and the
redirect.  When the INSERT throws (`insertOk = false`) control jumps to
the catch, which answers 500 — no row is written and no redirect is
sent. -/
def clickHandler (insertOk : Bool) (linkId : String) (now : Nat) (req : Request)
    (s : Store) : Store × ClickResponse :=
  match s.links.find? (fun l => l.id == linkId) with
  | none => (s, notFoundResponse)
  | some link =>
    if insertOk then
      ({ s with clicks := s.clicks ++ [clickRowOf linkId now req] },
       redirectResponse link.original_url)
    else
      (s, serverErrorResponse)

/-- The single-quote character, the delimiter of SQL string literals. -/
def quoteChar : Char := Char.ofNat 39

/-- SQLite lexing of a string literal body: the input is the text after
the opening quote; a doubled quote is an escaped quote; returns the
literal and the text after the closing quote, or none when the literal is
unterminated. -/
def scanLit : List Char → Option (List Char × List Char)
  | [] => none
  | c :: rest =>
    if c = quoteChar then
      match rest with
      | [] => some ([], [])
      | c2 :: rest2 =>
        if c2 = quoteChar then
          match scanLit rest2 with
          | none => none
          | some p => some (quoteChar :: p.1, p.2)
        else some ([], rest)
    else
      match scanLit rest with
      | none => none
      | some p => some (c :: p.1, p.2)

/-- Meaning of the interpolated fragment WHERE col = <quote>s<quote> built
by src/unnamed/part_000 (e.g. line 101): the fragment must lex as exactly
one string literal ending the statement.  An unterminated literal is a SQL
syntax error and any text surviving past the literal leaves the intended
grammar; both are modelled as none (db.exec throws, the catch answers
500). -/
def sqlStringFragment (s : String) : Option String :=
  match scanLit (s.data ++ [quoteChar]) with
  | some (lit, []) => some (String.mk lit)
  | _ => none

/-- GET /c/:linkId of src/unnamed/part_000 (lines 97-119): the lookup
interpolates linkId into the SQL text; the Click insert uses the raw
linkId; the catch answers 500. -/
def clickHandlerPart (linkId : String) (now : Nat) (req : Request)
    (s : Store) : Store × ClickResponse :=
  match sqlStringFragment linkId with
  | none => (s, serverErrorResponse)
  | some lit =>
    match s.links.find? (fun l => l.id == lit) with
    | none => (s, notFoundResponse)
    | some link =>
      ({ s with clicks := s.clicks ++ [clickRowOf linkId now req] },
       redirectResponse link.original_url)

/-- Models (SELECT COUNT(*) FROM opens WHERE email_id = e.id). -/
def openCount (s : Store) (emailId : String) : Nat :=
  s.opens.countP (fun o => o.email_id == emailId)

/-- Models (SELECT MAX(opened_at) FROM opens WHERE email_id = e.id),
NULL when there is no open. -/
def lastOpened (s : Store) (emailId : String) : Option Nat :=
  ((s.opens.filter (fun o => o.email_id == emailId)).map (fun o => o.opened_at)).max?

/-- Models (SELECT COUNT(*) FROM clicks c JOIN links l ON
c.link_id = l.id WHERE l.email_id = e.id): the number of matching
(click, link) pairs. -/
def emailClickCount (s : Store) (emailId : String) : Nat :=
  (s.clicks.map (fun c =>
    s.links.countP (fun l => c.link_id == l.id && l.email_id == emailId))).sum

/-- One element of the GET /api/emails response array. -/
structure EmailListItem where
  id : String
  subject : String
  recipient : String
  sent_at : Nat
  open_count : Nat
  last_opened : Option Nat
  click_count : Nat
  deriving DecidableEq

/-- The annotated row built for one email by the /api/emails SELECT. -/
def listItemOf (s : Store) (e : EmailRow) : EmailListItem :=
  { id := e.id
    subject := e.subject
    recipient := e.recipient
    sent_at := e.sent_at
    open_count := openCount s e.id
    last_opened := lastOpened s e.id
    click_count := emailClickCount s e.id }

/-- ORDER BY e.sent_at DESC. -/
def bySentAtDesc (a b : EmailRow) : Prop := b.sent_at ≤ a.sent_at

instance : DecidableRel bySentAtDesc := fun a b => Nat.decLe b.sent_at a.sent_at

instance : IsTotal EmailRow bySentAtDesc :=
  ⟨fun a b => (Nat.le_total a.sent_at b.sent_at).symm⟩

instance : IsTrans EmailRow bySentAtDesc :=
  ⟨fun _ _ _ hab hbc => Nat.le_trans hbc hab⟩

/-- GET /api/emails?userEmail=X (src/index.js lines 197-225): the emails
owned by the user, newest sent_at first, LIMIT 100, each annotated with
open count, last opened and click count. -/
def apiEmails (userEmail : String) (s : Store) : List EmailListItem :=
  (((s.emails.filter (fun e => e.user_email == userEmail)).insertionSort
      bySentAtDesc).take 100).map (listItemOf s)

/-- GET /api/emails of src/unnamed/part_000 (lines 168-203): the same
SELECT but with userEmail interpolated into the SQL text; none is the
catch branch (500). -/
def apiEmailsPart (userEmail : String) (s : Store) : Option (List EmailListItem) :=
  match sqlStringFragment userEmail with
  | none => none
  | some lit => some (apiEmails lit s)

/-- Counts how many emails owned by the user one open row joins to:
JOIN emails e ON o.email_id = e.id with WHERE e.user_email = u. -/
def openUserMult (s : Store) (u : String) (o : OpenRow) : Nat :=
  s.emails.countP (fun e => o.email_id == e.id && e.user_email == u)

/-- total_opens of /api/stats: COUNT(*) over opens JOIN emails filtered
by user, i.e. the number of matching (open, email) pairs. -/
def totalOpens (s : Store) (u : String) : Nat :=
  (s.opens.map (openUserMult s u)).sum

/-- total_clicks of /api/stats: COUNT(*) over clicks JOIN links JOIN
emails filtered by user, i.e. the number of matching
(click, link, email) triples. -/
def totalClicks (s : Store) (u : String) : Nat :=
  (s.clicks.map (fun c =>
    (s.links.map (fun l =>
      s.emails.countP (fun e =>
        (c.link_id == l.id && l.email_id == e.id) && e.user_email == u))).sum)).sum

/-- Models total_emails of /api/stats: COUNT(DISTINCT e.id) over the
emails owned by the user. -/
def totalEmailsDistinct (s : Store) (u : String) : Nat :=
  ((s.emails.filter (fun e => e.user_email == u)).map (fun e => e.id)).dedup.length

def secondsPerDay : Nat := 86400

/-- DATE(t): the calendar day of a timestamp. -/
def dayOf (t : Nat) : Nat := t / secondsPerDay

/-- Models DATE(now, -7 days) as a timestamp: midnight seven days before
today. -/
def windowStart (now : Nat) : Nat := (dayOf now - 7) * secondsPerDay

/-- The opens feeding the opensByDay query: opened_at within the trailing
window and joined to at least one email owned by the user. -/
def windowOpens (s : Store) (u : String) (now : Nat) : List OpenRow :=
  s.opens.filter (fun o =>
    decide (windowStart now ≤ o.opened_at) && decide (0 < openUserMult s u o))

/-- The GROUP BY keys of the opensByDay query: the distinct days of the
joined window opens, ORDER BY date ascending. -/
def opensByDayKeys (s : Store) (u : String) (now : Nat) : List Nat :=
  (((windowOpens s u now).map (fun o => dayOf o.opened_at)).dedup).insertionSort (· ≤ ·)

/-- The opensByDay query of src/index.js lines 306-316: joined opens of
the trailing window, GROUP BY DATE(opened_at) with COUNT(*) of joined
rows, ORDER BY date ascending. -/
def opensByDay (s : Store) (u : String) (now : Nat) : List (Nat × Nat) :=
  (opensByDayKeys s u now).map (fun d =>
    (d, (((windowOpens s u now).filter (fun o => dayOf o.opened_at == d)).map
      (openUserMult s u)).sum))

/-- The GET /api/stats response (src/index.js lines 287-326). -/
structure StatsResult where
  total_emails : Nat
  total_opens : Nat
  total_clicks : Nat
  opensByDay : List (Nat × Nat)
  deriving DecidableEq

/-- GET /api/stats?userEmail=X. -/
def apiStats (u : String) (now : Nat) (s : Store) : StatsResult :=
  { total_emails := totalEmailsDistinct s u
    total_opens := totalOpens s u
    total_clicks := totalClicks s u
    opensByDay := opensByDay s u now }

/-- The POST /api/emails response: 200 with body fields, or 500. -/
structure CreateEmailResult where
  status : Nat
  emailId : Option String
  trackingPixelUrl : Option String
  deriving DecidableEq

/-- POST /api/emails (src/index.js lines 149-168): insert the row under a
freshly generated id; the INSERT throws on a PRIMARY KEY collision, which
the catch turns into 500; on success the body carries the id and the
pixel URL built by template interpolation. -/
def createEmail (generatedId : String) (base : String)
    (subject recipient userEmail : String) (now : Nat) (s : Store) :
    Store × CreateEmailResult :=
  if s.emails.any (fun e => e.id == generatedId) then
    (s, { status := 500, emailId := none, trackingPixelUrl := none })
  else
    ({ s with emails := s.emails ++
        [{ id := generatedId, subject := subject, recipient := recipient,
           sent_at := now, user_email := userEmail }] },
     { status := 200
       emailId := some generatedId
       trackingPixelUrl := some (base ++ "/t/" ++ generatedId ++ ".png") })

/-- The POST /api/links response: 200 with body fields, or 500. -/
structure CreateLinkResult where
  status : Nat
  linkId : Option String
  trackedUrl : Option String
  deriving DecidableEq

/-- POST /api/links (src/index.js lines 173-192): insert the row under a
freshly generated id; a PRIMARY KEY collision becomes 500; on success the
body carries the id and the redirect URL. -/
def createLink (generatedId : String) (base : String)
    (emailId originalUrl : String) (now : Nat) (s : Store) :
    Store × CreateLinkResult :=
  if s.links.any (fun l => l.id == generatedId) then
    (s, { status := 500, linkId := none, trackedUrl := none })
  else
    ({ s with links := s.links ++
        [{ id := generatedId, email_id := emailId,
           original_url := originalUrl, created_at := now }] },
     { status := 200
       linkId := some generatedId
       trackedUrl := some (base ++ "/c/" ++ generatedId) })

/-- ORDER BY opened_at DESC. -/
def byOpenedAtDesc (a b : OpenRow) : Prop := b.opened_at ≤ a.opened_at

instance : DecidableRel byOpenedAtDesc := fun a b => Nat.decLe b.opened_at a.opened_at

instance : IsTotal OpenRow byOpenedAtDesc :=
  ⟨fun a b => (Nat.le_total a.opened_at b.opened_at).symm⟩

instance : IsTrans OpenRow byOpenedAtDesc :=
  ⟨fun _ _ _ hab hbc => Nat.le_trans hbc hab⟩

/-- ORDER BY c.clicked_at DESC on the joined (click, original_url)
rows. -/
def byClickedAtDesc (a b : ClickRow × String) : Prop :=
  b.1.clicked_at ≤ a.1.clicked_at

instance : DecidableRel byClickedAtDesc :=
  fun a b => Nat.decLe b.1.clicked_at a.1.clicked_at

instance : IsTotal (ClickRow × String) byClickedAtDesc :=
  ⟨fun a b => (Nat.le_total a.1.clicked_at b.1.clicked_at).symm⟩

instance : IsTrans (ClickRow × String) byClickedAtDesc :=
  ⟨fun _ _ _ hab hbc => Nat.le_trans hbc hab⟩

/-- The opens list of the email-detail response: the opens of the email,
newest first. -/
def detailOpens (emailId : String) (s : Store) : List OpenRow :=
  (s.opens.filter (fun o => o.email_id == emailId)).insertionSort byOpenedAtDesc

/-- The clicks list of the email-detail response: clicks JOIN links
restricted to the email, each row a click annotated with the original_url
of its link, newest first. -/
def detailClicks (emailId : String) (s : Store) : List (ClickRow × String) :=
  ((s.clicks.map (fun c =>
      (s.links.filter (fun l => c.link_id == l.id && l.email_id == emailId)).map
        (fun l => (c, l.original_url)))).flatten).insertionSort byClickedAtDesc

/-- The GET /api/emails/:emailId response for a found email: the email
row, the opens, the per-link click counts, the joined clicks, and the
derived stats block (Set size modelled by dedup length). -/
structure EmailDetail where
  email : EmailRow
  opens : List OpenRow
  links : List (String × String × Nat)
  clicks : List (ClickRow × String)
  totalOpens : Nat
  uniqueOpens : Nat
  totalClicks : Nat
  uniqueClicks : Nat
  deriving DecidableEq

/-- GET /api/emails/:emailId (src/index.js lines 230-282): none is the
404 branch. -/
def emailDetail (emailId : String) (s : Store) : Option EmailDetail :=
  match s.emails.find? (fun e => e.id == emailId) with
  | none => none
  | some e =>
    some
      { email := e
        opens := detailOpens emailId s
        links := (s.links.filter (fun l => l.email_id == emailId)).map
          (fun l => (l.id, l.original_url, s.clicks.countP (fun c => c.link_id == l.id)))
        clicks := detailClicks emailId s
        totalOpens := (detailOpens emailId s).length
        uniqueOpens := ((detailOpens emailId s).map (fun o => o.ip_address)).dedup.length
        totalClicks := (detailClicks emailId s).length
        uniqueClicks :=
          ((detailClicks emailId s).map (fun p => p.1.ip_address)).dedup.length }

/-! Generic counting lemmas used to relate the SQL aggregates. -/

theorem sum_map_add {α : Type} (l : List α) (f g : α → Nat) :
    (l.map (fun x => f x + g x)).sum = (l.map f).sum + (l.map g).sum := by
  induction l with
  | nil => simp
  | cons x xs ih => simp [ih]; omega

theorem countP_eq_sum_ite {α : Type} (l : List α) (p : α → Bool) :
    l.countP p = (l.map (fun x => if p x then 1 else 0)).sum := by
  induction l with
  | nil => simp
  | cons x xs ih => simp [List.countP_cons, ih]; omega

theorem sum_countP_comm {α β : Type} (as : List α) (bs : List β) (p : α → β → Bool) :
    (as.map (fun a => bs.countP (p a))).sum
      = (bs.map (fun b => as.countP (fun a => p a b))).sum := by
  induction as with
  | nil => simp
  | cons a as ih =>
    simp only [List.map_cons, List.sum_cons, List.countP_cons]
    rw [sum_map_add, ih, ← countP_eq_sum_ite]
    omega

theorem sum_map_sum_comm {α β : Type} (as : List α) (bs : List β) (f : α → β → Nat) :
    (as.map (fun a => (bs.map (f a)).sum)).sum
      = (bs.map (fun b => (as.map (fun a => f a b)).sum)).sum := by
  induction as with
  | nil => simp
  | cons a as ih =>
    simp only [List.map_cons, List.sum_cons]
    rw [ih, ← sum_map_add]

theorem sum_filter_map {α : Type} (l : List α) (q : α → Bool) (f : α → Nat) :
    ((l.filter q).map f).sum = (l.map (fun x => if q x then f x else 0)).sum := by
  induction l with
  | nil => simp
  | cons x xs ih =>
    by_cases h : q x <;> simp [List.filter_cons, h, ih]

theorem countP_and_const {α : Type} (l : List α) (p : α → Bool) (b : Bool) :
    l.countP (fun x => p x && b) = if b then l.countP p else 0 := by
  cases b <;> simp

/-- Request and store used by the concrete evaluations below. -/
def reqW : Request := { xForwardedFor := none, ip := "9.9.9.9", userAgent := some "UA" }

def linkW : LinkRow :=
  { id := "l1", email_id := "e1", original_url := "https://example.com", created_at := 0 }

def storeW : Store := { emails := [], opens := [], links := [linkW], clicks := [] }

/-- C1: the spec demands that on a successful lookup the 302 redirect is
issued even when the Click insert fails (attempt insert, log and ignore
the failure, always redirect).  The code puts the lookup, the insert and
the redirect in one try block, so an insert failure jumps to the catch
and answers 500: at a store holding link l1, the failing-insert run
returns 500, not 302, and writes nothing, while the succeeding run
returns 302. -/
theorem c1_click_insert_failure_returns_500 :
    (clickHandler false "l1" 7 reqW storeW).2 = serverErrorResponse ∧
    (clickHandler false "l1" 7 reqW storeW).2.status = 500 ∧
    (clickHandler false "l1" 7 reqW storeW).2.status ≠ 302 ∧
    (clickHandler false "l1" 7 reqW storeW).1 = storeW ∧
    (clickHandler true "l1" 7 reqW storeW).2.status = 302 := by
  decide

/-- C2: for GET /c/:linkId with a working store, a successful lookup
yields the 302 redirect to the stored original_url and appends exactly
one Click row for that link (its click count grows by one, the other
tables are untouched); a failed lookup yields the 404 response and
leaves the store unchanged. -/
theorem c2_click_redirect_and_count (linkId : String) (now : Nat) (req : Request)
    (s : Store) :
    (∀ link, s.links.find? (fun l => l.id == linkId) = some link →
      (clickHandler true linkId now req s).2 = redirectResponse link.original_url ∧
      (clickHandler true linkId now req s).2.status = 302 ∧
      (clickHandler true linkId now req s).2.location = some link.original_url ∧
      (clickHandler true linkId now req s).1.clicks
        = s.clicks ++ [clickRowOf linkId now req] ∧
      (clickHandler true linkId now req s).1.clicks.countP (fun c => c.link_id == linkId)
        = s.clicks.countP (fun c => c.link_id == linkId) + 1 ∧
      (clickHandler true linkId now req s).1.emails = s.emails ∧
      (clickHandler true linkId now req s).1.opens = s.opens ∧
      (clickHandler true linkId now req s).1.links = s.links) ∧
    (s.links.find? (fun l => l.id == linkId) = none →
      (clickHandler true linkId now req s).2 = notFoundResponse ∧
      (clickHandler true linkId now req s).2.status = 404 ∧
      (clickHandler true linkId now req s).1 = s) := by
  constructor
  · intro link h
    simp [clickHandler, h, redirectResponse, List.countP_append, List.countP_cons,
      clickRowOf]
  · intro h
    simp [clickHandler, h, notFoundResponse]

theorem c2_click_redirect_and_count_witness :
    (clickHandler true "l1" 7 reqW storeW).2 = redirectResponse "https://example.com" ∧
    (clickHandler true "l1" 7 reqW storeW).1.clicks.countP (fun c => c.link_id == "l1")
      = 1 ∧
    (clickHandler true "zz" 7 reqW storeW).2 = notFoundResponse ∧
    (clickHandler true "zz" 7 reqW storeW).1 = storeW := by
  have h1 := (c2_click_redirect_and_count "l1" 7 reqW storeW).1 linkW (by decide)
  have h2 := (c2_click_redirect_and_count "zz" 7 reqW storeW).2 (by decide)
  exact ⟨h1.1, by simpa using h1.2.2.2.2.1, h2.1, h2.2.2⟩

/-- C4: the response of the pixel endpoint (status, every header, the
body bytes) is the same whether or not the Open insert succeeded: a
logging failure never changes the pixel response. -/
theorem c4_pixel_response_ignores_insert_failure (insertOk : Bool) (emailId : String)
    (now : Nat) (req : Request) (s : Store) :
    (pixelHandler insertOk emailId now req s).2
      = (pixelHandler true emailId now req s).2 ∧
    (pixelHandler insertOk emailId now req s).2 = pixelResponse ∧
    (pixelHandler insertOk emailId now req s).2.status = 200 ∧
    (pixelHandler insertOk emailId now req s).2.contentType = "image/png" ∧
    (pixelHandler insertOk emailId now req s).2.body = trackingPixel := by
  exact ⟨rfl, rfl, rfl, rfl, rfl⟩

theorem pixelRun_spec (emailId : String) (rs : List (Request × Nat)) (s : Store) :
    (pixelRun emailId rs s).1.opens
      = s.opens ++ rs.map (fun rn => openRowOf emailId rn.2 rn.1) ∧
    (pixelRun emailId rs s).2 = List.replicate rs.length pixelResponse := by
  induction rs generalizing s with
  | nil => simp [pixelRun]
  | cons rn rest ih =>
    have h := ih { s with opens := s.opens ++ [openRowOf emailId rn.2 rn.1] }
    simp only [pixelRun, pixelHandler, if_pos] at h ⊢
    refine ⟨?_, ?_⟩
    · rw [h.1]
      simp
    · rw [h.2]
      simp [List.replicate_succ, pixelResponse]

/-- C5: fetching /t/:emailId.png once per element of rs appends exactly
rs.length Open rows, each carrying that emailId, and every response is
the byte-identical fixed pixel whose Cache-Control header carries the
no-store directive. -/
theorem c5_pixel_n_fetches (emailId : String) (rs : List (Request × Nat)) (s : Store) :
    (pixelRun emailId rs s).1.opens
      = s.opens ++ rs.map (fun rn => openRowOf emailId rn.2 rn.1) ∧
    (pixelRun emailId rs s).1.opens.length = s.opens.length + rs.length ∧
    ((rs.map (fun rn => openRowOf emailId rn.2 rn.1)).all
      (fun row => row.email_id == emailId)) = true ∧
    (pixelRun emailId rs s).2 = List.replicate rs.length pixelResponse ∧
    pixelResponse.cacheControl = "no-store, no-cache, must-revalidate, private" ∧
    (∃ rest, pixelResponse.cacheControl = "no-store" ++ rest) := by
  obtain ⟨h1, h2⟩ := pixelRun_spec emailId rs s
  refine ⟨h1, ?_, ?_, h2, rfl, ⟨", no-cache, must-revalidate, private", rfl⟩⟩
  · rw [h1]
    simp
  · refine List.all_eq_true.mpr ?_
    intro row hrow
    rw [List.mem_map] at hrow
    obtain ⟨rn, _, hr⟩ := hrow
    subst hr
    exact beq_self_eq_true _

/-- C10: the pixel response is independent of the emailId, the request
headers and the whole store: any two runs produce identical bytes and
headers, and a run changes nothing but (at most) appending the one Open
row. -/
theorem c10_pixel_response_noninterference :
    (∀ ok1 emailId1 now1 req1 s1 ok2 emailId2 now2 req2 s2,
      (pixelHandler ok1 emailId1 now1 req1 s1).2
        = (pixelHandler ok2 emailId2 now2 req2 s2).2) ∧
    (∀ ok emailId now req s,
      (pixelHandler ok emailId now req s).1.emails = s.emails ∧
      (pixelHandler ok emailId now req s).1.links = s.links ∧
      (pixelHandler ok emailId now req s).1.clicks = s.clicks ∧
      ((pixelHandler ok emailId now req s).1.opens
          = s.opens ++ [openRowOf emailId now req] ∨
        (pixelHandler ok emailId now req s).1.opens = s.opens)) := by
  constructor
  · intro ok1 emailId1 now1 req1 s1 ok2 emailId2 now2 req2 s2
    rfl
  · intro ok emailId now req s
    cases ok <;> simp [pixelHandler]

/-- C6: a successful email registration implies the generated id collided
with no id already stored, the response carries it, and the returned
pixel URL embeds it verbatim; distinctness of the stored ids is
preserved.  Likewise for link registration and the tracked URL. -/
theorem c6_registration_unique_id_and_url (gid base subject recipient userEmail
    eid url : String) (now : Nat) (s : Store) :
    ((createEmail gid base subject recipient userEmail now s).2.status = 200 →
      (∀ e ∈ s.emails, e.id ≠ gid) ∧
      (createEmail gid base subject recipient userEmail now s).2.emailId = some gid ∧
      (∃ pre post,
        (createEmail gid base subject recipient userEmail now s).2.trackingPixelUrl
          = some (pre ++ gid ++ post)) ∧
      ((s.emails.map (fun e => e.id)).Nodup →
        ((createEmail gid base subject recipient userEmail now s).1.emails.map
          (fun e => e.id)).Nodup)) ∧
    ((createLink gid base eid url now s).2.status = 200 →
      (∀ l ∈ s.links, l.id ≠ gid) ∧
      (createLink gid base eid url now s).2.linkId = some gid ∧
      (∃ pre post,
        (createLink gid base eid url now s).2.trackedUrl = some (pre ++ gid ++ post)) ∧
      ((s.links.map (fun l => l.id)).Nodup →
        ((createLink gid base eid url now s).1.links.map (fun l => l.id)).Nodup)) := by
  constructor
  · intro h
    by_cases hany : s.emails.any (fun e => e.id == gid)
    · exact absurd h (by simp [createEmail, hany])
    · have hne : ∀ e ∈ s.emails, e.id ≠ gid := by
        intro e he hid
        exact hany (List.any_eq_true.mpr ⟨e, he, by simp [hid]⟩)
      refine ⟨hne, ?_, ?_, ?_⟩
      · simp [createEmail, hany]
      · exact ⟨base ++ "/t/", ".png", by simp [createEmail, hany]⟩
      · intro hnd
        simp only [createEmail, hany, if_neg, Bool.false_eq_true, not_false_iff,
          List.map_append]
        simpa [List.nodup_append] using ⟨hnd, hne⟩
  · intro h
    by_cases hany : s.links.any (fun l => l.id == gid)
    · exact absurd h (by simp [createLink, hany])
    · have hne : ∀ l ∈ s.links, l.id ≠ gid := by
        intro l hl hid
        exact hany (List.any_eq_true.mpr ⟨l, hl, by simp [hid]⟩)
      refine ⟨hne, ?_, ?_, ?_⟩
      · simp [createLink, hany]
      · refine ⟨base ++ "/c/", "", by simp [createLink, hany]⟩
      · intro hnd
        simp only [createLink, hany, if_neg, Bool.false_eq_true, not_false_iff,
          List.map_append]
        simpa [List.nodup_append] using ⟨hnd, hne⟩

theorem c6_registration_unique_id_and_url_witness :
    (createEmail "aa" "https://h" "s" "r" "u" 3 storeW).2.emailId = some "aa" ∧
    (∃ pre post, (createEmail "aa" "https://h" "s" "r" "u" 3 storeW).2.trackingPixelUrl
      = some (pre ++ "aa" ++ post)) ∧
    (∀ e ∈ storeW.emails, e.id ≠ "aa") ∧
    (createLink "aa" "https://h" "e1" "https://x" 3 storeW).2.linkId = some "aa" ∧
    (∃ pre post, (createLink "aa" "https://h" "e1" "https://x" 3 storeW).2.trackedUrl
      = some (pre ++ "aa" ++ post)) ∧
    (∀ l ∈ storeW.links, l.id ≠ "aa") := by
  have h := c6_registration_unique_id_and_url "aa" "https://h" "s" "r" "u" "e1"
    "https://x" 3 storeW
  have h1 := h.1 (by decide)
  have h2 := h.2 (by decide)
  exact ⟨h1.2.1, h1.2.2.1, h1.1, h2.2.1, h2.2.2.1, h2.1⟩

/-- C7: the stats block of the email-detail endpoint satisfies
uniqueOpens ≤ totalOpens and uniqueClicks ≤ totalClicks, with equality
when the recorded IP addresses of the corresponding events are pairwise
distinct. -/
theorem c7_detail_stats (emailId : String) (s : Store) (d : EmailDetail)
    (h : emailDetail emailId s = some d) :
    d.uniqueOpens ≤ d.totalOpens ∧ d.uniqueClicks ≤ d.totalClicks ∧
    ((d.opens.map (fun o => o.ip_address)).Nodup → d.uniqueOpens = d.totalOpens) ∧
    ((d.clicks.map (fun p => p.1.ip_address)).Nodup → d.uniqueClicks = d.totalClicks) := by
  unfold emailDetail at h
  cases hf : s.emails.find? (fun e => e.id == emailId) with
  | none =>
    rw [hf] at h
    exact absurd h (by simp)
  | some e =>
    rw [hf] at h
    injection h with h
    subst h
    refine ⟨?_, ?_, ?_, ?_⟩
    · calc ((detailOpens emailId s).map (fun o => o.ip_address)).dedup.length
          ≤ ((detailOpens emailId s).map (fun o => o.ip_address)).length :=
            (List.dedup_sublist _).length_le
        _ = (detailOpens emailId s).length := List.length_map _ _
    · calc ((detailClicks emailId s).map (fun p => p.1.ip_address)).dedup.length
          ≤ ((detailClicks emailId s).map (fun p => p.1.ip_address)).length :=
            (List.dedup_sublist _).length_le
        _ = (detailClicks emailId s).length := List.length_map _ _
    · intro hnd
      show ((detailOpens emailId s).map (fun o => o.ip_address)).dedup.length
        = (detailOpens emailId s).length
      rw [List.dedup_eq_self.mpr hnd, List.length_map]
    · intro hnd
      show ((detailClicks emailId s).map (fun p => p.1.ip_address)).dedup.length
        = (detailClicks emailId s).length
      rw [List.dedup_eq_self.mpr hnd, List.length_map]

def emailW7 : EmailRow :=
  { id := "e1", subject := "s", recipient := "r", sent_at := 0, user_email := "u" }

def openW7 : OpenRow :=
  { email_id := "e1", opened_at := 5, ip_address := "1.2.3.4", user_agent := "UA" }

def storeW7 : Store := { emails := [emailW7], opens := [openW7], links := [], clicks := [] }

def detailW7 : EmailDetail :=
  { email := emailW7, opens := [openW7], links := [], clicks := [],
    totalOpens := 1, uniqueOpens := 1, totalClicks := 0, uniqueClicks := 0 }

theorem c7_detail_stats_witness :
    detailW7.uniqueOpens ≤ detailW7.totalOpens ∧
    detailW7.uniqueClicks ≤ detailW7.totalClicks ∧
    detailW7.uniqueOpens = detailW7.totalOpens ∧
    detailW7.uniqueClicks = detailW7.totalClicks := by
  have h := c7_detail_stats "e1" storeW7 detailW7 (by decide)
  exact ⟨h.1, h.2.1, h.2.2.1 (by decide), h.2.2.2 (by decide)⟩

/-- A list of 101 emails owned by user u, with distinct ids and distinct
sent_at. -/
def emailsC3 : List EmailRow :=
  (List.range 101).map (fun i =>
    { id := toString i, subject := "", recipient := "", sent_at := i, user_email := "u" })

/-- One open per email of emailsC3. -/
def opensC3 : List OpenRow :=
  (List.range 101).map (fun i =>
    { email_id := toString i, opened_at := i, ip_address := "ip", user_agent := "ua" })

def storeC3 : Store := { emails := emailsC3, opens := opensC3, links := [], clicks := [] }

set_option maxRecDepth 100000 in
/-- C3 counterexample: with 101 emails, each opened once, the stats total
counts all 101 opens while the listing is truncated to 100 emails, so the
sum of the per-email open counts it returns is 100 — the claimed equality
fails. -/
theorem c3_counterexample_101_emails :
    (apiStats "u" 0 storeC3).total_opens = 101 ∧
    ((apiEmails "u" storeC3).map (fun i => i.open_count)).sum = 100 ∧
    (apiStats "u" 0 storeC3).total_opens
      ≠ ((apiEmails "u" storeC3).map (fun i => i.open_count)).sum := by
  refine ⟨by decide, by decide, by decide⟩

/-- C3 (amended): whenever the user owns at most 100 emails — so the
LIMIT 100 of the listing truncates nothing — the /api/stats totals equal
the sums of the per-email open and click counts returned by
/api/emails. -/
theorem c3_stats_totals_match_listing_sums (u : String) (now : Nat) (s : Store)
    (h : (s.emails.filter (fun e => e.user_email == u)).length ≤ 100) :
    (apiStats u now s).total_opens
      = ((apiEmails u s).map (fun i => i.open_count)).sum ∧
    (apiStats u now s).total_clicks
      = ((apiEmails u s).map (fun i => i.click_count)).sum := by
  have hperm : List.Perm
      ((s.emails.filter (fun e => e.user_email == u)).insertionSort bySentAtDesc)
      (s.emails.filter (fun e => e.user_email == u)) :=
    List.perm_insertionSort _ _
  have htake : ((s.emails.filter (fun e => e.user_email == u)).insertionSort
        bySentAtDesc).take 100
      = (s.emails.filter (fun e => e.user_email == u)).insertionSort bySentAtDesc :=
    List.take_of_length_le (by rw [hperm.length_eq]; exact h)
  constructor
  · have hmap : ((apiEmails u s).map (fun i => i.open_count))
        = ((s.emails.filter (fun e => e.user_email == u)).insertionSort
            bySentAtDesc).map (fun e => openCount s e.id) := by
      rw [apiEmails, htake, List.map_map]
      rfl
    rw [hmap, (hperm.map (fun e => openCount s e.id)).sum_eq]
    show totalOpens s u = ((s.emails.filter (fun e => e.user_email == u)).map
      (fun e => s.opens.countP (fun o => o.email_id == e.id))).sum
    rw [sum_countP_comm (s.emails.filter (fun e => e.user_email == u)) s.opens
      (fun e o => o.email_id == e.id)]
    have key : ∀ o : OpenRow,
        (s.emails.filter (fun e => e.user_email == u)).countP
          (fun e => o.email_id == e.id)
        = s.emails.countP (fun e => o.email_id == e.id && e.user_email == u) :=
      fun o => List.countP_filter ..
    simp only [key]
    rfl
  · have hmap : ((apiEmails u s).map (fun i => i.click_count))
        = ((s.emails.filter (fun e => e.user_email == u)).insertionSort
            bySentAtDesc).map (fun e => emailClickCount s e.id) := by
      rw [apiEmails, htake, List.map_map]
      rfl
    rw [hmap, (hperm.map (fun e => emailClickCount s e.id)).sum_eq]
    show totalClicks s u = ((s.emails.filter (fun e => e.user_email == u)).map
      (fun e => (s.clicks.map (fun c =>
        s.links.countP (fun l => c.link_id == l.id && l.email_id == e.id))).sum)).sum
    rw [sum_map_sum_comm (s.emails.filter (fun e => e.user_email == u)) s.clicks
      (fun e c => s.links.countP (fun l => c.link_id == l.id && l.email_id == e.id))]
    have key : ∀ c : ClickRow,
        ((s.emails.filter (fun e => e.user_email == u)).map (fun e =>
          s.links.countP (fun l => c.link_id == l.id && l.email_id == e.id))).sum
        = (s.links.map (fun l => s.emails.countP (fun e =>
            (c.link_id == l.id && l.email_id == e.id) && e.user_email == u))).sum := by
      intro c
      rw [sum_countP_comm (s.emails.filter (fun e => e.user_email == u)) s.links
        (fun e l => c.link_id == l.id && l.email_id == e.id)]
      have key2 : ∀ l : LinkRow,
          (s.emails.filter (fun e => e.user_email == u)).countP
            (fun e => c.link_id == l.id && l.email_id == e.id)
          = s.emails.countP (fun e =>
              (c.link_id == l.id && l.email_id == e.id) && e.user_email == u) :=
        fun l => List.countP_filter ..
      simp only [key2]
    simp only [key]
    rfl

/-- A small store inside the 100-email limit: one email, two opens, one
link, one click. -/
def storeC3w : Store :=
  { emails := [⟨"e1", "", "", 1, "u"⟩],
    opens := [⟨"e1", 2, "a", "x"⟩, ⟨"e1", 3, "b", "x"⟩],
    links := [⟨"l1", "e1", "https://x", 0⟩],
    clicks := [⟨"l1", 4, "a", "x"⟩] }

theorem c3_stats_totals_match_listing_sums_witness :
    (storeC3w.emails.filter (fun e => e.user_email == "u")).length ≤ 100 ∧
    (apiStats "u" 9 storeC3w).total_opens
      = ((apiEmails "u" storeC3w).map (fun i => i.open_count)).sum ∧
    (apiStats "u" 9 storeC3w).total_clicks
      = ((apiEmails "u" storeC3w).map (fun i => i.click_count)).sum := by
  have h := c3_stats_totals_match_listing_sums "u" 9 storeC3w (by decide)
  exact ⟨by decide, h.1, h.2⟩

/-- C8: the opensByDay list has one entry per calendar day with at least
one joined open in the trailing window (days with no open are absent),
every entry counts at least one open, and the days are strictly
ascending. -/
theorem c8_opens_by_day_sparse_ascending (u : String) (now : Nat) (s : Store) :
    List.Pairwise (fun a b : Nat × Nat => a.1 < b.1) (opensByDay s u now) ∧
    (∀ p ∈ opensByDay s u now, 1 ≤ p.2) ∧
    (∀ d : Nat, (∃ p ∈ opensByDay s u now, p.1 = d)
      ↔ ∃ o ∈ windowOpens s u now, dayOf o.opened_at = d) := by
  have hperm : List.Perm (opensByDayKeys s u now)
      (((windowOpens s u now).map (fun o => dayOf o.opened_at)).dedup) :=
    List.perm_insertionSort _ _
  have hnd : (opensByDayKeys s u now).Nodup :=
    hperm.nodup_iff.mpr (List.nodup_dedup _)
  have hsorted : List.Sorted (· ≤ ·) (opensByDayKeys s u now) :=
    List.sorted_insertionSort _ _
  have hlt : List.Sorted (· < ·) (opensByDayKeys s u now) := hsorted.lt_of_le hnd
  refine ⟨?_, ?_, ?_⟩
  · exact List.Pairwise.map _ (fun a b hab => hab) hlt
  · intro p hp
    rw [opensByDay, List.mem_map] at hp
    obtain ⟨d, hd, rfl⟩ := hp
    have hd2 : d ∈ ((windowOpens s u now).map (fun o => dayOf o.opened_at)).dedup :=
      hperm.mem_iff.mp hd
    rw [List.mem_dedup, List.mem_map] at hd2
    obtain ⟨o, ho, hod⟩ := hd2
    have hgrp : o ∈ (windowOpens s u now).filter (fun o => dayOf o.opened_at == d) :=
      List.mem_filter.mpr ⟨ho, by simp [hod]⟩
    have hmult : 1 ≤ openUserMult s u o := by
      have := (List.mem_filter.mp ho).2
      rw [Bool.and_eq_true] at this
      exact Nat.succ_le_of_lt (of_decide_eq_true this.2)
    have hle : openUserMult s u o
        ≤ (((windowOpens s u now).filter (fun o => dayOf o.opened_at == d)).map
            (openUserMult s u)).sum :=
      List.single_le_sum (fun x _ => Nat.zero_le x) _
        (List.mem_map.mpr ⟨o, hgrp, rfl⟩)
    exact le_trans hmult hle
  · intro d
    constructor
    · rintro ⟨p, hp, rfl⟩
      rw [opensByDay, List.mem_map] at hp
      obtain ⟨d', hd', rfl⟩ := hp
      have hd2 : d' ∈ ((windowOpens s u now).map (fun o => dayOf o.opened_at)).dedup :=
        hperm.mem_iff.mp hd'
      rw [List.mem_dedup, List.mem_map] at hd2
      obtain ⟨o, ho, hod⟩ := hd2
      exact ⟨o, ho, hod⟩
    · rintro ⟨o, ho, rfl⟩
      refine ⟨_, List.mem_map.mpr ⟨dayOf o.opened_at, ?_, rfl⟩, rfl⟩
      exact hperm.mem_iff.mpr
        (List.mem_dedup.mpr (List.mem_map.mpr ⟨o, ho, rfl⟩))

def storeW8 : Store :=
  { emails := [⟨"e1", "", "", 0, "u"⟩],
    opens := [⟨"e1", 864000, "a", "x"⟩, ⟨"e1", 864005, "b", "x"⟩,
      ⟨"e1", 950400, "a", "x"⟩],
    links := [], clicks := [] }

theorem c8_opens_by_day_sparse_ascending_witness :
    (∃ o ∈ windowOpens storeW8 "u" 1036800, dayOf o.opened_at = 10) ∧
    (∃ p ∈ opensByDay storeW8 "u" 1036800, p.1 = 11) ∧
    1 ≤ (((10 : Nat), (2 : Nat)) : Nat × Nat).2 := by
  have h := c8_opens_by_day_sparse_ascending "u" 1036800 storeW8
  refine ⟨(h.2.2 10).mp ⟨(10, 2), by decide, rfl⟩,
    (h.2.2 11).mpr ⟨⟨"e1", 950400, "a", "x"⟩, by decide, by decide⟩,
    h.2.1 (10, 2) (by decide)⟩

theorem scanLit_no_quote (l : List Char) (h : ∀ c ∈ l, c ≠ quoteChar) :
    scanLit (l ++ [quoteChar]) = some (l, []) := by
  induction l with
  | nil => simp [scanLit]
  | cons c cs ih =>
    have hc : ¬ (c = quoteChar) := h c (List.mem_cons_self ..)
    have ih2 := ih (fun x hx => h x (List.mem_cons_of_mem _ hx))
    rw [scanLit.eq_def]
    simp [hc, ih2]

theorem sqlStringFragment_no_quote (s : String)
    (h : s.data.all (fun c => c != quoteChar) = true) :
    sqlStringFragment s = some s := by
  have h' : ∀ c ∈ s.data, c ≠ quoteChar := by
    intro c hc
    simpa using List.all_eq_true.mp h c hc
  unfold sqlStringFragment
  rw [scanLit_no_quote s.data h']

/-- The one-character string holding a single quote. -/
def quoteStr : String := String.mk [quoteChar]

/-- C9 counterexample: on the linkId consisting of one single-quote
character, the interpolated variant builds an unterminated SQL literal,
db.exec throws and the handler answers 500, while the parameterized
variant looks the string up, finds nothing and answers 404 — the two
variants are not behaviourally equivalent. -/
theorem c9_counterexample_quote_input_diverges :
    (clickHandlerPart quoteStr 0 reqW storeW).2.status = 500 ∧
    (clickHandler true quoteStr 0 reqW storeW).2.status = 404 ∧
    (clickHandlerPart quoteStr 0 reqW storeW).2
      ≠ (clickHandler true quoteStr 0 reqW storeW).2 := by
  refine ⟨by decide, by decide, by decide⟩

/-- C9 (amended): the two variants agree on GET /c/:linkId and on
GET /api/emails — same response and same state change — for every input
string that contains no single-quote character; quote-containing inputs
can diverge. -/
theorem c9_variants_agree_without_quotes (lid u : String) (now : Nat) (req : Request)
    (s : Store) :
    (lid.data.all (fun c => c != quoteChar) = true →
      clickHandlerPart lid now req s = clickHandler true lid now req s) ∧
    (u.data.all (fun c => c != quoteChar) = true →
      apiEmailsPart u s = some (apiEmails u s)) := by
  constructor
  · intro h
    unfold clickHandlerPart clickHandler
    rw [sqlStringFragment_no_quote lid h]
    rfl
  · intro h
    unfold apiEmailsPart
    rw [sqlStringFragment_no_quote u h]

theorem c9_variants_agree_without_quotes_witness :
    clickHandlerPart "l1" 7 reqW storeW = clickHandler true "l1" 7 reqW storeW ∧
    apiEmailsPart "u" storeW = some (apiEmails "u" storeW) := by
  have h := c9_variants_agree_without_quotes "l1" "u" 7 reqW storeW
  exact ⟨h.1 (by decide), h.2 (by decide)⟩

end EmailTracker
